import Mathlib

/-!
Shallow embedding of the authorization guard in
`src/packages/backend/src/host/http/core/guards/authorization.guard.ts`
(class `AuthorizationGuard`).

The guard decides allow/deny for an HTTP request: public-route bypass,
authorization-context presence check, organization-id resolution from a
route slug, cached rule-set retrieval (handler metadata preferred over
controller metadata), and in-order short-circuiting rule evaluation, with
a top-level catch converting any thrown error into deny.

JavaScript exceptions are embedded as `Except String`; the mutable
rule-set cache is explicit state threaded through the decision; calls to
collaborators (organization repository, reflector metadata reads, cache
`wrap`, rule `isAuthorized`) are counted so that claims of the form
"no lookup is performed" or "the third rule is never invoked" are
statable. Logging is an excluded external collaborator and is dropped.
-/

namespace NestjsBff

/-- Identity/claims of the requester (`AuthorizationEntity` from the
`@nestjs-bff/global` package). The guard treats it as opaque: it only
checks presence and passes it through to rules. -/
structure AuthorizationEntity where
  userId : String
deriving Repr, DecidableEq

/-- Result of `OrganizationRepo.findOne({ slug })`: the record exposes the
internal organization id. -/
structure Organization where
  id : String
deriving Repr, DecidableEq

/-- Parameter object handed to `authcheck.isAuthorized` in `canActivate`
(lines 84-88 of the source). -/
structure AuthCheckParams where
  requestingEntity : AuthorizationEntity
  orgIdForTargetResource : Option String
  userIdForTargetResource : Option String
deriving Repr, DecidableEq

/-- An authorization rule (`AuthCheckContract`): a single predicate
capability that may also throw (embedded as `Except.error`). -/
structure AuthCheckContract where
  isAuthorized : AuthCheckParams → Except String Bool

/-- The inbound request object, restricted to the fields `canActivate`
reads: `originalUrl`, `params.organizationSlug`, `params.userId`, and the
previously attached `authorization`. Absent values are `none`. -/
structure Request where
  originalUrl : String
  organizationSlug : Option String
  userId : Option String
  authorization : Option AuthorizationEntity

/-- The reflector metadata target: `context.getHandler()` or
`context.getClass()`, identified by name. -/
inductive MetaTarget where
  | handler (name : String)
  | cls (name : String)
deriving Repr, DecidableEq

/-- The reflector: `reflector.get<AuthCheckContract[]>(key, target)`
returns the attached metadata list or `undefined` (here `none`). -/
structure Reflector where
  get : String → MetaTarget → Option (List AuthCheckContract)

/-- The execution context: the HTTP request (which `getRequest` may fail
to produce, hence `Option`) plus the identities of the matched handler
and controller class. -/
structure ExecutionContext where
  request : Option Request
  handlerName : String
  className : String

/-- One cache entry: the stored value together with the time it was
stored (seconds). -/
structure CacheEntry where
  value : Option (List AuthCheckContract)
  storedAt : Nat

/-- The shared keyed cache store, as an association list from string keys
to entries. -/
structure CacheStore where
  entries : List (String × CacheEntry)

/-- Result of a `CacheStore.wrap` call: the produced value, the updated
store, and whether the compute function was invoked. -/
structure WrapResult where
  value : Option (List AuthCheckContract)
  store : CacheStore
  computed : Bool

/-- Modelled from the spec: the `CacheStore` implementation
(`shared/caching/cache-store.shared`) is not part of this slice; spec §6
gives its contract: `wrap(key, computeFn, { ttl_seconds }) -> value` —
return cached value if present and unexpired, else invoke `computeFn`,
store, and return. An entry stored at `storedAt` is unexpired at `now`
iff `now < storedAt + ttl`. -/
def CacheStore.wrap (store : CacheStore) (now : Nat) (key : String)
    (compute : Unit → Option (List AuthCheckContract)) (ttl : Nat) : WrapResult :=
  match List.lookup key store.entries with
  | some entry =>
    if now < entry.storedAt + ttl then
      { value := entry.value, store := store, computed := false }
    else
      let v := compute ()
      { value := v, store := ⟨(key, ⟨v, now⟩) :: store.entries⟩, computed := true }
  | none =>
    let v := compute ()
    { value := v, store := ⟨(key, ⟨v, now⟩) :: store.entries⟩, computed := true }

/-- The guard's injected collaborators: the public-route regular
expression (as its `test` function), the organization repository's
`findOne` keyed by slug (which may throw), and the reflector. -/
structure GuardEnv where
  publicRouteRegexTest : String → Bool
  organizationFindOne : String → Except String (Option Organization)
  reflector : Reflector

namespace AuthorizationGuard

/-- `getauthcheck` (source lines 147-153): read the `authorization`
metadata from the handler; only when that read yields `undefined` fall
back to the controller class. A present-but-empty list is truthy in
JavaScript, so it does not trigger the fallback. -/
def getauthcheck (r : Reflector) (ctx : ExecutionContext) : Option (List AuthCheckContract) :=
  match r.get "authorization" (MetaTarget.handler ctx.handlerName) with
  | some authchecks => some authchecks
  | none => r.get "authorization" (MetaTarget.cls ctx.className)

/-- The cache key built in `getauthchecksFromCache` (source line 137),
from the class and handler identities. -/
def authcheckCacheKey (ctx : ExecutionContext) : String :=
  "AuthorizationGuard-authcheck?class=" ++ ctx.className ++ "&handler=" ++ ctx.handlerName ++ ")"

/-- `getauthchecksFromCache` (source lines 136-145): resolve the rule set
through `cacheStore.wrap` keyed by the class/handler pair, with a TTL of
`60 * 60 * 24 * 7` seconds. -/
def getauthchecksFromCache (g : GuardEnv) (store : CacheStore) (now : Nat)
    (ctx : ExecutionContext) : WrapResult :=
  CacheStore.wrap store now (authcheckCacheKey ctx)
    (fun _ => getauthcheck g.reflector ctx) (60 * 60 * 24 * 7)

/-- `getOrgIdFromSlug` (source lines 115-134): a falsy slug (absent or
the empty string) yields `undefined` without a repository call; otherwise
`findOne({ slug })` is called, absence yields `undefined`, presence
yields the organization's id. The second component counts repository
calls. -/
def getOrgIdFromSlug (g : GuardEnv) (organizationSlug : Option String) :
    Except String (Option String) × Nat :=
  match organizationSlug with
  | none => (Except.ok none, 0)
  | some slug =>
    if slug = "" then (Except.ok none, 0)
    else
      match g.organizationFindOne slug with
      | Except.error e => (Except.error e, 1)
      | Except.ok none => (Except.ok none, 1)
      | Except.ok (some organization) => (Except.ok (some organization.id), 1)

/-- The `for (const authcheck of authchecks)` loop of `canActivate`
(source lines 82-97): evaluate each rule in order on the same parameter
object; the first rule returning false ends the loop with false, a
thrown error propagates; all rules passing yields true. The second
component counts `isAuthorized` invocations. -/
def runAuthchecks (authchecks : List AuthCheckContract) (p : AuthCheckParams) :
    Except String Bool × Nat :=
  match authchecks with
  | [] => (Except.ok true, 0)
  | c :: rest =>
    match c.isAuthorized p with
    | Except.error e => (Except.error e, 1)
    | Except.ok false => (Except.ok false, 1)
    | Except.ok true =>
      let r := runAuthchecks rest p
      (r.1, r.2 + 1)

/-- Result of the body of `canActivate`'s `try` block, together with the
updated cache and instrumentation: organization-repository calls, cache
`wrap` calls, whether the rule-source compute ran, and rule
(`isAuthorized`) invocations. -/
structure InnerResult where
  result : Except String Bool
  cache : CacheStore
  orgLookups : Nat
  cacheAccesses : Nat
  ruleSourceComputed : Bool
  ruleInvocations : Nat

/-- The `try` block of `canActivate` (source lines 37-104): missing
request throws; a public route returns true immediately; a missing
authorization context returns false; then the organization id, the user
id and the cached rule set are resolved; an absent or empty rule set
returns false; otherwise the rules are run in order. -/
def canActivateInner (g : GuardEnv) (store : CacheStore) (now : Nat)
    (ctx : ExecutionContext) : InnerResult :=
  match ctx.request with
  | none =>
    { result := Except.error "request can not be null", cache := store,
      orgLookups := 0, cacheAccesses := 0, ruleSourceComputed := false, ruleInvocations := 0 }
  | some req =>
    if g.publicRouteRegexTest req.originalUrl then
      { result := Except.ok true, cache := store,
        orgLookups := 0, cacheAccesses := 0, ruleSourceComputed := false, ruleInvocations := 0 }
    else
      match req.authorization with
      | none =>
        { result := Except.ok false, cache := store,
          orgLookups := 0, cacheAccesses := 0, ruleSourceComputed := false, ruleInvocations := 0 }
      | some authorization =>
        match getOrgIdFromSlug g req.organizationSlug with
        | (Except.error e, n) =>
          { result := Except.error e, cache := store,
            orgLookups := n, cacheAccesses := 0, ruleSourceComputed := false, ruleInvocations := 0 }
        | (Except.ok orgId, n) =>
          let userId := req.userId
          let w := getauthchecksFromCache g store now ctx
          match w.value with
          | none =>
            { result := Except.ok false, cache := w.store,
              orgLookups := n, cacheAccesses := 1, ruleSourceComputed := w.computed,
              ruleInvocations := 0 }
          | some [] =>
            { result := Except.ok false, cache := w.store,
              orgLookups := n, cacheAccesses := 1, ruleSourceComputed := w.computed,
              ruleInvocations := 0 }
          | some (c :: rest) =>
            let r := runAuthchecks (c :: rest)
              { requestingEntity := authorization,
                orgIdForTargetResource := orgId,
                userIdForTargetResource := userId }
            { result := r.1, cache := w.store,
              orgLookups := n, cacheAccesses := 1, ruleSourceComputed := w.computed,
              ruleInvocations := r.2 }

/-- Observable outcome of `canActivate`: the boolean decision plus the
updated cache and the instrumentation counters. -/
structure Outcome where
  allow : Bool
  cache : CacheStore
  orgLookups : Nat
  cacheAccesses : Nat
  ruleSourceComputed : Bool
  ruleInvocations : Nat

/-- `canActivate` (source lines 36-109): run the `try` block; the `catch`
converts any thrown error into the return value false (source lines
105-108). -/
def canActivate (g : GuardEnv) (store : CacheStore) (now : Nat)
    (ctx : ExecutionContext) : Outcome :=
  let r := canActivateInner g store now ctx
  { allow := match r.result with | Except.ok b => b | Except.error _ => false
    cache := r.cache
    orgLookups := r.orgLookups
    cacheAccesses := r.cacheAccesses
    ruleSourceComputed := r.ruleSourceComputed
    ruleInvocations := r.ruleInvocations }

end AuthorizationGuard

/-! Concrete fixtures used by the witness theorems. -/

/-- A rule that always passes. -/
def passRule : AuthCheckContract := ⟨fun _ => Except.ok true⟩

/-- A rule that always denies. -/
def failRule : AuthCheckContract := ⟨fun _ => Except.ok false⟩

/-- A rule that throws. -/
def throwRule : AuthCheckContract := ⟨fun _ => Except.error "authcheck threw"⟩

/-- A rule that passes exactly when the target organization id is
"org_1". -/
def orgCheckRule : AuthCheckContract :=
  ⟨fun p => Except.ok (p.orgIdForTargetResource == some "org_1")⟩

/-- A sample authorization context. -/
def sampleAuth : AuthorizationEntity := ⟨"user_1"⟩

/-- The empty cache store. -/
def emptyStore : CacheStore := ⟨[]⟩

/-- A reflector with fixed handler-level and controller-level
`authorization` metadata. -/
def mkReflector (h c : Option (List AuthCheckContract)) : Reflector :=
  ⟨fun key t =>
    if key = "authorization" then
      match t with
      | MetaTarget.handler _ => h
      | MetaTarget.cls _ => c
    else none⟩

/-- A guard environment where only the path "/public" is public, the slug
"acme" resolves to organization id "org_1", and the reflector carries the
given metadata. -/
def mkEnv (h c : Option (List AuthCheckContract)) : GuardEnv :=
  ⟨fun u => u == "/public",
   fun s => if s == "acme" then Except.ok (some ⟨"org_1"⟩) else Except.ok none,
   mkReflector h c⟩

/-- An execution context around the given request. -/
def ctxOf (r : Option Request) : ExecutionContext := ⟨r, "findAll", "CatsController"⟩

open AuthorizationGuard

/-- If every rule in the list passes, the loop returns true after
invoking each rule exactly once. -/
theorem runAuthchecks_all_pass (checks : List AuthCheckContract) (p : AuthCheckParams)
    (h : ∀ c ∈ checks, c.isAuthorized p = Except.ok true) :
    runAuthchecks checks p = (Except.ok true, checks.length) := by
  induction checks with
  | nil => simp [runAuthchecks]
  | cons c rest ih =>
    have hc : c.isAuthorized p = Except.ok true := h c (List.mem_cons_self c rest)
    have hrest := ih (fun d hd => h d (List.mem_cons_of_mem c hd))
    simp [runAuthchecks, hc, hrest]

/-- Running a list with a passing front segment behaves as running the
tail, with the front's invocations added. -/
theorem runAuthchecks_append_pass (pre rest : List AuthCheckContract) (p : AuthCheckParams)
    (h : ∀ c ∈ pre, c.isAuthorized p = Except.ok true) :
    runAuthchecks (pre ++ rest) p =
      ((runAuthchecks rest p).1, (runAuthchecks rest p).2 + pre.length) := by
  induction pre with
  | nil => simp
  | cons c pr ih =>
    have hc : c.isAuthorized p = Except.ok true := h c (List.mem_cons_self c pr)
    have hpr := ih (fun d hd => h d (List.mem_cons_of_mem c hd))
    simp [runAuthchecks, hc, hpr]
    omega

/-- Under the non-public, authorized, no-throw path with a non-empty
resolved rule set, the decision and the invocation count of
`canActivateInner` are exactly those of the rule-evaluation loop. -/
theorem canActivateInner_ruleset (g : GuardEnv) (store : CacheStore) (now : Nat)
    (ctx : ExecutionContext) (req : Request) (a : AuthorizationEntity)
    (orgId : Option String) (n : Nat) (checks : List AuthCheckContract)
    (hreq : ctx.request = some req)
    (hpub : g.publicRouteRegexTest req.originalUrl = false)
    (hauth : req.authorization = some a)
    (horg : getOrgIdFromSlug g req.organizationSlug = (Except.ok orgId, n))
    (hset : (getauthchecksFromCache g store now ctx).value = some checks)
    (hne : checks ≠ []) :
    (canActivateInner g store now ctx).result =
      (runAuthchecks checks ⟨a, orgId, req.userId⟩).1 ∧
    (canActivateInner g store now ctx).ruleInvocations =
      (runAuthchecks checks ⟨a, orgId, req.userId⟩).2 := by
  cases checks with
  | nil => exact absurd rfl hne
  | cons c rest =>
    simp [canActivateInner, hreq, hpub, hauth, horg, hset]

/-- C1: fail-closed default — for a non-public request that carries an
authorization context, if the rule set resolved for the matched
handler/controller is absent or empty, `canActivate` returns false. -/
theorem fail_closed_absent_or_empty_ruleset (g : GuardEnv) (store : CacheStore) (now : Nat)
    (ctx : ExecutionContext) (req : Request) (a : AuthorizationEntity)
    (hreq : ctx.request = some req)
    (hpub : g.publicRouteRegexTest req.originalUrl = false)
    (hauth : req.authorization = some a)
    (hset : (getauthchecksFromCache g store now ctx).value = none ∨
            (getauthchecksFromCache g store now ctx).value = some []) :
    (canActivate g store now ctx).allow = false := by
  rcases hone : getOrgIdFromSlug g req.organizationSlug with ⟨res, n⟩
  cases res with
  | error e =>
    simp [canActivate, canActivateInner, hreq, hpub, hauth, hone]
  | ok orgId =>
    rcases hset with h | h <;>
      simp [canActivate, canActivateInner, hreq, hpub, hauth, hone, h]

/-- Witness for C1: a non-public request with an authorization context on
a route with no configured rule set is denied. -/
theorem fail_closed_absent_or_empty_ruleset_witness :
    (canActivate (mkEnv none none) emptyStore 0
      (ctxOf (some ⟨"/cats", none, none, some sampleAuth⟩))).allow = false :=
  fail_closed_absent_or_empty_ruleset (mkEnv none none) emptyStore 0
    (ctxOf (some ⟨"/cats", none, none, some sampleAuth⟩))
    ⟨"/cats", none, none, some sampleAuth⟩ sampleAuth rfl rfl rfl (Or.inl rfl)

/-- C2: error containment — any error produced inside the `try` block of
`canActivate` is converted into the return value false, never into an
allow; `canActivate` itself is a total function into `Outcome`, so no
exception reaches the caller. -/
theorem error_containment (g : GuardEnv) (store : CacheStore) (now : Nat)
    (ctx : ExecutionContext) (e : String)
    (herr : (canActivateInner g store now ctx).result = Except.error e) :
    (canActivate g store now ctx).allow = false := by
  simp [canActivate, herr]

/-- Witness for C2: a missing request object throws inside the `try`
block and the caller observes false. -/
theorem error_containment_witness :
    (canActivate (mkEnv none none) emptyStore 0 (ctxOf none)).allow = false :=
  error_containment (mkEnv none none) emptyStore 0 (ctxOf none)
    "request can not be null" rfl

/-- C3: public-route bypass — a request whose `originalUrl` matches the
public-route pattern is allowed regardless of the authorization context,
with no organization lookup, no cache access, no rule invocation, and the
cache left unchanged. -/
theorem public_route_bypass (g : GuardEnv) (store : CacheStore) (now : Nat)
    (ctx : ExecutionContext) (req : Request)
    (hreq : ctx.request = some req)
    (hpub : g.publicRouteRegexTest req.originalUrl = true) :
    (canActivate g store now ctx).allow = true ∧
    (canActivate g store now ctx).orgLookups = 0 ∧
    (canActivate g store now ctx).cacheAccesses = 0 ∧
    (canActivate g store now ctx).ruleInvocations = 0 ∧
    (canActivate g store now ctx).cache = store := by
  simp [canActivate, canActivateInner, hreq, hpub]

/-- Witness for C3: a public-route request with no authorization context
is allowed with zero collaborator calls. -/
theorem public_route_bypass_witness :
    (canActivate (mkEnv none none) emptyStore 0
      (ctxOf (some ⟨"/public", none, none, none⟩))).allow = true ∧
    (canActivate (mkEnv none none) emptyStore 0
      (ctxOf (some ⟨"/public", none, none, none⟩))).orgLookups = 0 ∧
    (canActivate (mkEnv none none) emptyStore 0
      (ctxOf (some ⟨"/public", none, none, none⟩))).cacheAccesses = 0 ∧
    (canActivate (mkEnv none none) emptyStore 0
      (ctxOf (some ⟨"/public", none, none, none⟩))).ruleInvocations = 0 ∧
    (canActivate (mkEnv none none) emptyStore 0
      (ctxOf (some ⟨"/public", none, none, none⟩))).cache = emptyStore :=
  public_route_bypass (mkEnv none none) emptyStore 0
    (ctxOf (some ⟨"/public", none, none, none⟩)) ⟨"/public", none, none, none⟩ rfl rfl

/-- C4: missing authorization context — a non-public request whose
`authorization` field is absent is denied. -/
theorem missing_authorization_denied (g : GuardEnv) (store : CacheStore) (now : Nat)
    (ctx : ExecutionContext) (req : Request)
    (hreq : ctx.request = some req)
    (hpub : g.publicRouteRegexTest req.originalUrl = false)
    (hauth : req.authorization = none) :
    (canActivate g store now ctx).allow = false := by
  simp [canActivate, canActivateInner, hreq, hpub, hauth]

/-- Witness for C4: a non-public request with no authorization context is
denied. -/
theorem missing_authorization_denied_witness :
    (canActivate (mkEnv none none) emptyStore 0
      (ctxOf (some ⟨"/cats", none, none, none⟩))).allow = false :=
  missing_authorization_denied (mkEnv none none) emptyStore 0
    (ctxOf (some ⟨"/cats", none, none, none⟩)) ⟨"/cats", none, none, none⟩ rfl rfl rfl

/-- C5: rule evaluation is in-order and short-circuiting — with a
non-empty resolved rule list, if the rules up to some failing rule all
pass and that rule returns false, `canActivate` returns false having
invoked exactly the rules up to and including the failing one (later
rules are never invoked); if every rule returns true, `canActivate`
returns true having invoked every rule once. -/
theorem rule_evaluation_in_order_short_circuit (g : GuardEnv) (store : CacheStore)
    (now : Nat) (ctx : ExecutionContext) (req : Request) (a : AuthorizationEntity)
    (orgId : Option String) (n : Nat) (checks pre post : List AuthCheckContract)
    (failc : AuthCheckContract)
    (hreq : ctx.request = some req)
    (hpub : g.publicRouteRegexTest req.originalUrl = false)
    (hauth : req.authorization = some a)
    (horg : getOrgIdFromSlug g req.organizationSlug = (Except.ok orgId, n))
    (hset : (getauthchecksFromCache g store now ctx).value = some checks) :
    (checks = pre ++ failc :: post →
      (∀ c ∈ pre, c.isAuthorized ⟨a, orgId, req.userId⟩ = Except.ok true) →
      failc.isAuthorized ⟨a, orgId, req.userId⟩ = Except.ok false →
      (canActivate g store now ctx).allow = false ∧
      (canActivate g store now ctx).ruleInvocations = pre.length + 1) ∧
    (checks ≠ [] →
      (∀ c ∈ checks, c.isAuthorized ⟨a, orgId, req.userId⟩ = Except.ok true) →
      (canActivate g store now ctx).allow = true ∧
      (canActivate g store now ctx).ruleInvocations = checks.length) := by
  constructor
  · intro heq hpre hfail
    have hne : checks ≠ [] := by
      rw [heq]; exact List.append_ne_nil_of_right_ne_nil pre (List.cons_ne_nil failc post)
    obtain ⟨hres, hinv⟩ := canActivateInner_ruleset g store now ctx req a orgId n checks
      hreq hpub hauth horg hset hne
    rw [heq] at hres hinv
    rw [runAuthchecks_append_pass pre (failc :: post) _ hpre] at hres hinv
    simp only [runAuthchecks, hfail] at hres hinv
    refine ⟨?_, ?_⟩
    · simp [canActivate, hres]
    · simp [canActivate]
      omega
  · intro hne hall
    obtain ⟨hres, hinv⟩ := canActivateInner_ruleset g store now ctx req a orgId n checks
      hreq hpub hauth horg hset hne
    rw [runAuthchecks_all_pass checks _ hall] at hres hinv
    exact ⟨by simp [canActivate, hres], by simp [canActivate, hinv]⟩

/-- Witness for C5: with rules [pass, fail, pass] the decision is deny
and exactly two rules are invoked — the third is never invoked. -/
theorem rule_evaluation_in_order_short_circuit_witness :
    (canActivate (mkEnv (some [passRule, failRule, passRule]) none) emptyStore 0
      (ctxOf (some ⟨"/cats", none, none, some sampleAuth⟩))).allow = false ∧
    (canActivate (mkEnv (some [passRule, failRule, passRule]) none) emptyStore 0
      (ctxOf (some ⟨"/cats", none, none, some sampleAuth⟩))).ruleInvocations = 2 := by
  have h := rule_evaluation_in_order_short_circuit
    (mkEnv (some [passRule, failRule, passRule]) none) emptyStore 0
    (ctxOf (some ⟨"/cats", none, none, some sampleAuth⟩))
    ⟨"/cats", none, none, some sampleAuth⟩ sampleAuth none 0
    [passRule, failRule, passRule] [passRule] [passRule] failRule
    rfl rfl rfl rfl rfl
  have h1 := h.1 rfl (by intro c hc; simp only [List.mem_singleton] at hc; rw [hc]; rfl) rfl
  exact ⟨h1.1, h1.2⟩

/-- C6: handler precedence — when handler-level `authorization` metadata
is present, `getauthcheck` returns exactly that set, whatever the
controller-level metadata is; the controller-level metadata is consulted
only when the handler-level read yields nothing. -/
theorem handler_ruleset_precedence (r : Reflector) (ctx : ExecutionContext) :
    (∀ hs, r.get "authorization" (MetaTarget.handler ctx.handlerName) = some hs →
      getauthcheck r ctx = some hs) ∧
    (r.get "authorization" (MetaTarget.handler ctx.handlerName) = none →
      getauthcheck r ctx = r.get "authorization" (MetaTarget.cls ctx.className)) := by
  constructor
  · intro hs h; simp [getauthcheck, h]
  · intro h; simp [getauthcheck, h]

/-- Witness for C6: with a denying handler-level set and an allowing
controller-level set, resolution returns the handler-level set. -/
theorem handler_ruleset_precedence_witness :
    getauthcheck (mkReflector (some [failRule]) (some [passRule])) (ctxOf none) =
      some [failRule] :=
  (handler_ruleset_precedence (mkReflector (some [failRule]) (some [passRule]))
    (ctxOf none)).1 [failRule] rfl

/-- C7: organization slug resolution — with a non-empty resolved rule
set: a slug whose repository lookup returns a record makes the decision
equal to running every rule with that record's id as
`orgIdForTargetResource`; a slug with no matching organization, or an
absent slug, makes the decision equal to running every rule with
`orgIdForTargetResource` absent; and that absence alone does not deny —
if all rules pass the request is allowed. -/
theorem organization_slug_resolution (g : GuardEnv) (store : CacheStore) (now : Nat)
    (ctx : ExecutionContext) (req : Request) (a : AuthorizationEntity)
    (checks : List AuthCheckContract)
    (hreq : ctx.request = some req)
    (hpub : g.publicRouteRegexTest req.originalUrl = false)
    (hauth : req.authorization = some a)
    (hset : (getauthchecksFromCache g store now ctx).value = some checks)
    (hne : checks ≠ []) :
    (∀ s org, req.organizationSlug = some s → s ≠ "" →
      g.organizationFindOne s = Except.ok (some org) →
      (canActivateInner g store now ctx).result =
        (runAuthchecks checks ⟨a, some org.id, req.userId⟩).1) ∧
    (∀ s, req.organizationSlug = some s → s ≠ "" →
      g.organizationFindOne s = Except.ok none →
      (canActivateInner g store now ctx).result =
        (runAuthchecks checks ⟨a, none, req.userId⟩).1) ∧
    (req.organizationSlug = none →
      (canActivateInner g store now ctx).result =
        (runAuthchecks checks ⟨a, none, req.userId⟩).1) ∧
    (∀ s, req.organizationSlug = some s → s ≠ "" →
      g.organizationFindOne s = Except.ok none →
      (∀ c ∈ checks, c.isAuthorized ⟨a, none, req.userId⟩ = Except.ok true) →
      (canActivate g store now ctx).allow = true) := by
  refine ⟨?_, ?_, ?_, ?_⟩
  · intro s org hslug hs hfind
    have horg : getOrgIdFromSlug g req.organizationSlug = (Except.ok (some org.id), 1) := by
      simp [getOrgIdFromSlug, hslug, hs, hfind]
    exact (canActivateInner_ruleset g store now ctx req a (some org.id) 1 checks
      hreq hpub hauth horg hset hne).1
  · intro s hslug hs hfind
    have horg : getOrgIdFromSlug g req.organizationSlug = (Except.ok none, 1) := by
      simp [getOrgIdFromSlug, hslug, hs, hfind]
    exact (canActivateInner_ruleset g store now ctx req a none 1 checks
      hreq hpub hauth horg hset hne).1
  · intro hslug
    have horg : getOrgIdFromSlug g req.organizationSlug = (Except.ok none, 0) := by
      simp [getOrgIdFromSlug, hslug]
    exact (canActivateInner_ruleset g store now ctx req a none 0 checks
      hreq hpub hauth horg hset hne).1
  · intro s hslug hs hfind hall
    have horg : getOrgIdFromSlug g req.organizationSlug = (Except.ok none, 1) := by
      simp [getOrgIdFromSlug, hslug, hs, hfind]
    have hres := (canActivateInner_ruleset g store now ctx req a none 1 checks
      hreq hpub hauth horg hset hne).1
    rw [runAuthchecks_all_pass checks _ hall] at hres
    simp [canActivate, hres]

/-- Witness for C7: slug "acme" resolves to "org_1" and the decision is
that of running the rules with `orgIdForTargetResource = "org_1"`; a slug
with no matching organization still allows when all rules pass. -/
theorem organization_slug_resolution_witness :
    (canActivateInner (mkEnv (some [orgCheckRule]) none) emptyStore 0
      (ctxOf (some ⟨"/cats", some "acme", none, some sampleAuth⟩))).result =
      (runAuthchecks [orgCheckRule] ⟨sampleAuth, some "org_1", none⟩).1 ∧
    (canActivate (mkEnv (some [passRule]) none) emptyStore 0
      (ctxOf (some ⟨"/cats", some "nomatch", none, some sampleAuth⟩))).allow = true := by
  constructor
  · exact (organization_slug_resolution (mkEnv (some [orgCheckRule]) none) emptyStore 0
      (ctxOf (some ⟨"/cats", some "acme", none, some sampleAuth⟩))
      ⟨"/cats", some "acme", none, some sampleAuth⟩ sampleAuth [orgCheckRule]
      rfl rfl rfl rfl (List.cons_ne_nil _ _)).1 "acme" ⟨"org_1"⟩ rfl (by decide) rfl
  · exact (organization_slug_resolution (mkEnv (some [passRule]) none) emptyStore 0
      (ctxOf (some ⟨"/cats", some "nomatch", none, some sampleAuth⟩))
      ⟨"/cats", some "nomatch", none, some sampleAuth⟩ sampleAuth [passRule]
      rfl rfl rfl rfl (List.cons_ne_nil _ _)).2.2.2 "nomatch" rfl (by decide) rfl
      (by intro c hc; simp only [List.mem_singleton] at hc; rw [hc]; rfl)

/-- C8: rule-set caching with one-week TTL — starting from a store with
no entry for the handler's key, the first resolution invokes the rule
source and yields its value; a second resolution within
`60 * 60 * 24 * 7` seconds serves the cached value without invoking it;
a second resolution at or after expiry invokes it again. -/
theorem ruleset_cache_one_week_ttl (g : GuardEnv) (store : CacheStore) (t1 t2 : Nat)
    (ctx : ExecutionContext)
    (hfresh : List.lookup (authcheckCacheKey ctx) store.entries = none) :
    (getauthchecksFromCache g store t1 ctx).computed = true ∧
    (getauthchecksFromCache g store t1 ctx).value = getauthcheck g.reflector ctx ∧
    (t2 < t1 + 60 * 60 * 24 * 7 →
      (getauthchecksFromCache g (getauthchecksFromCache g store t1 ctx).store t2 ctx).computed
        = false ∧
      (getauthchecksFromCache g (getauthchecksFromCache g store t1 ctx).store t2 ctx).value
        = (getauthchecksFromCache g store t1 ctx).value) ∧
    (t1 + 60 * 60 * 24 * 7 ≤ t2 →
      (getauthchecksFromCache g (getauthchecksFromCache g store t1 ctx).store t2 ctx).computed
        = true) := by
  refine ⟨?_, ?_, ?_, ?_⟩
  · simp [getauthchecksFromCache, CacheStore.wrap, hfresh]
  · simp [getauthchecksFromCache, CacheStore.wrap, hfresh]
  · intro hlt
    constructor <;> simp [getauthchecksFromCache, CacheStore.wrap, hfresh, List.lookup, hlt]
  · intro hge
    have hnlt : ¬ t2 < t1 + 60 * 60 * 24 * 7 := Nat.not_lt.mpr hge
    simp [getauthchecksFromCache, CacheStore.wrap, hfresh, List.lookup, hnlt]

/-- Witness for C8: on a fresh store the rule source is computed at time
0, is not recomputed at time 10, and is recomputed at time 604800. -/
theorem ruleset_cache_one_week_ttl_witness :
    (getauthchecksFromCache (mkEnv (some [passRule]) none) emptyStore 0
      (ctxOf none)).computed = true ∧
    (getauthchecksFromCache (mkEnv (some [passRule]) none)
      (getauthchecksFromCache (mkEnv (some [passRule]) none) emptyStore 0
        (ctxOf none)).store 10 (ctxOf none)).computed = false ∧
    (getauthchecksFromCache (mkEnv (some [passRule]) none)
      (getauthchecksFromCache (mkEnv (some [passRule]) none) emptyStore 0
        (ctxOf none)).store 604800 (ctxOf none)).computed = true := by
  refine ⟨?_, ?_, ?_⟩
  · exact (ruleset_cache_one_week_ttl (mkEnv (some [passRule]) none) emptyStore 0 10
      (ctxOf none) rfl).1
  · exact ((ruleset_cache_one_week_ttl (mkEnv (some [passRule]) none) emptyStore 0 10
      (ctxOf none) rfl).2.2.1 (by decide)).1
  · exact (ruleset_cache_one_week_ttl (mkEnv (some [passRule]) none) emptyStore 0 604800
      (ctxOf none) rfl).2.2.2 (by decide)

/-- C9: idempotent rule-set recomputation — `getauthcheck` depends only
on the handler-level and controller-level metadata reads, so any two
invocations seeing the same metadata produce the same ordered rule list,
and a cache-population race that recomputes the value stores an
identical result. -/
theorem getauthcheck_deterministic (r1 r2 : Reflector) (ctx1 ctx2 : ExecutionContext)
    (hh : r1.get "authorization" (MetaTarget.handler ctx1.handlerName) =
          r2.get "authorization" (MetaTarget.handler ctx2.handlerName))
    (hc : r1.get "authorization" (MetaTarget.cls ctx1.className) =
          r2.get "authorization" (MetaTarget.cls ctx2.className)) :
    getauthcheck r1 ctx1 = getauthcheck r2 ctx2 := by
  unfold getauthcheck
  rw [hh, hc]

/-- Witness for C9: two contexts with different handler and class names
but identical metadata resolve to the same rule set. -/
theorem getauthcheck_deterministic_witness :
    getauthcheck (mkReflector (some [passRule]) none) (ctxOf none) =
      getauthcheck (mkReflector (some [passRule]) none) ⟨none, "other", "OtherController"⟩ :=
  getauthcheck_deterministic (mkReflector (some [passRule]) none)
    (mkReflector (some [passRule]) none) (ctxOf none)
    ⟨none, "other", "OtherController"⟩ rfl rfl

/-- C10: empty handler-level rule set blocks the controller fallback —
when the handler-level metadata is present but empty, `getauthcheck`
returns the empty list (the controller metadata is not consulted), and a
non-public authorized request is therefore denied even if a controller-
level rule set is configured that would pass. -/
theorem empty_handler_ruleset_blocks_fallback (g : GuardEnv) (store : CacheStore)
    (now : Nat) (ctx : ExecutionContext) (req : Request) (a : AuthorizationEntity)
    (hreq : ctx.request = some req)
    (hpub : g.publicRouteRegexTest req.originalUrl = false)
    (hauth : req.authorization = some a)
    (hmeta : g.reflector.get "authorization" (MetaTarget.handler ctx.handlerName) = some [])
    (hfresh : List.lookup (authcheckCacheKey ctx) store.entries = none) :
    getauthcheck g.reflector ctx = some [] ∧
    (canActivate g store now ctx).allow = false := by
  have hg : getauthcheck g.reflector ctx = some [] := by simp [getauthcheck, hmeta]
  have hset : (getauthchecksFromCache g store now ctx).value = some [] := by
    simp [getauthchecksFromCache, CacheStore.wrap, hfresh, hg]
  refine ⟨hg, ?_⟩
  rcases hone : getOrgIdFromSlug g req.organizationSlug with ⟨res, n⟩
  cases res with
  | error e => simp [canActivate, canActivateInner, hreq, hpub, hauth, hone]
  | ok orgId => simp [canActivate, canActivateInner, hreq, hpub, hauth, hone, hset]

/-- Witness for C10: an empty handler-level set with an allowing
controller-level set resolves to the empty set and the request is
denied. -/
theorem empty_handler_ruleset_blocks_fallback_witness :
    getauthcheck (mkEnv (some []) (some [passRule])).reflector
      (ctxOf (some ⟨"/cats", none, none, some sampleAuth⟩)) = some [] ∧
    (canActivate (mkEnv (some []) (some [passRule])) emptyStore 0
      (ctxOf (some ⟨"/cats", none, none, some sampleAuth⟩))).allow = false :=
  empty_handler_ruleset_blocks_fallback (mkEnv (some []) (some [passRule])) emptyStore 0
    (ctxOf (some ⟨"/cats", none, none, some sampleAuth⟩))
    ⟨"/cats", none, none, some sampleAuth⟩ sampleAuth rfl rfl rfl rfl rfl

end NestjsBff
